import Mathlib

/-!
Shallow embedding of the mini-codex agent core
(src/mini-codex/mini_codex/{tools,session,agent}.py) and proofs of the
specification claims about it.

The embedding translates the Python source directly:
  * `tools.py`: POSIX-lexical path handling (`os.path.join`,
    `os.path.normpath`), the `ToolExecutor` with its five handlers over an
    explicit filesystem state, exceptions modelled with `Except`.
  * `session.py`: the `Message` and `Session` dataclasses, their mutators,
    `compact`, and the `save`/`load` snapshot round trip.
  * `agent.py`: the turn loop `Agent.run` as fuel recursion over an opaque
    model-response function, and `_execute_tool` with the approval gate.
External collaborators (the model service, subprocesses, JSON parsing of
tool-call argument payloads) are opaque function parameters.
-/

namespace MiniCodex

/-! ## String utilities (kernel-reducible, over `List Char`)

Python string primitives used by the source, implemented by structural
recursion on character lists so that `decide`/`rfl` can evaluate them. -/

/-- Python `str.split(sep)` for a single-character separator, over char
lists: splits at every occurrence, keeping empty pieces. -/
def pySplitAux (sep : Char) : List Char → List Char → List String
  | [], acc => [String.mk acc.reverse]
  | c :: rest, acc =>
      if c = sep then String.mk acc.reverse :: pySplitAux sep rest []
      else pySplitAux sep rest (c :: acc)

/-- Python `s.split(sep)` for a one-character `sep`. -/
def pySplit (sep : Char) (s : String) : List String :=
  pySplitAux sep s.data []

/-- Python `sep.join(parts)` for `sep = "/"`. -/
def joinSlash : List String → String
  | [] => ""
  | [s] => s
  | s :: rest => s ++ "/" ++ joinSlash rest

/-- List version of `str.startswith`. -/
def listStarts : List Char → List Char → Bool
  | [], _ => true
  | _ :: _, [] => false
  | p :: ps, c :: cs => p = c && listStarts ps cs

/-- Python `s.startswith(p)`. -/
def strStarts (s p : String) : Bool :=
  listStarts p.data s.data

/-- Python `s.endswith(p)`. -/
def strEnds (s p : String) : Bool :=
  listStarts p.data.reverse s.data.reverse

/-- UTF-8 byte length of a string (Python `len(s.encode("utf-8"))`),
used to compare the byte count actually written against the character
count `len(s)` that the source reports. -/
def utf8Len (s : String) : Nat :=
  s.data.foldl (fun n c => n + c.utf8Size) 0

/-! ## `os.path` (POSIX) lexical path functions -/

/-- `posixpath.join(a, b)` for two arguments. -/
def pyJoin (a b : String) : String :=
  if strStarts b "/" then b
  else if a = "" || strEnds a "/" then a ++ b
  else a ++ "/" ++ b

/-- One step of the `normpath` component loop: Python
`for comp in comps: ...` with `initial_slashes : Nat` truthy iff nonzero. -/
def normStep (slashes : Nat) (acc : List String) (comp : String) : List String :=
  if comp = "" || comp = "." then acc
  else if comp ≠ ".." || (slashes = 0 && acc = []) ||
      (acc ≠ [] && acc.getLast? = some "..") then acc ++ [comp]
  else if acc ≠ [] then acc.dropLast
  else acc

/-- `posixpath.normpath`: purely lexical normalization, translated from
CPython (collapse separators, drop `.`, resolve `..` against preceding
components, preserve one or exactly two leading slashes). -/
def pyNormpath (p : String) : String :=
  if p = "" then "."
  else
    let slashes : Nat :=
      if strStarts p "//" && !strStarts p "///" then 2
      else if strStarts p "/" then 1 else 0
    let comps := pySplit '/' p
    let newComps := comps.foldl (normStep slashes) []
    let path := String.mk (List.replicate slashes '/') ++ joinSlash newComps
    if path = "" then "." else path

/-- `ToolExecutor._resolve_path`: join the argument against the working
directory, lexically normalize, and reject (ValueError) unless the result
string-startswith the working directory. -/
def resolve_path (working_dir path : String) : Except String String :=
  let resolved := pyNormpath (pyJoin working_dir path)
  if strStarts resolved working_dir then Except.ok resolved
  else Except.error ("Path " ++ path ++ " is outside working directory")

/-- The property the specification claims for containment: the resolved
path is the root itself or a strict descendant of it (`root ++ "/" ++ _`). -/
def isRootOrDescendant (root p : String) : Bool :=
  p = root || strStarts p (root ++ "/")

example : pyNormpath "/tmp/wd/../wd2" = "/tmp/wd2" := by decide
example : pyJoin "/tmp/wd" "../wd2" = "/tmp/wd/../wd2" := by decide
example : resolve_path "/tmp/wd" "../outside.txt" =
    Except.error "Path ../outside.txt is outside working directory" := rfl
example : resolve_path "/tmp/wd" "a/b.txt" = Except.ok "/tmp/wd/a/b.txt" := rfl
example : resolve_path "/tmp/wd" "../wd2" = Except.ok "/tmp/wd2" := rfl

/-- `posixpath.dirname`: everything up to the last separator, trailing
separators stripped unless the head is all separators. -/
def dropUntilSlash : List Char → List Char
  | [] => []
  | c :: rest => if c = '/' then c :: rest else dropUntilSlash rest

/-- Drop leading slashes of a char list (used on reversed data to strip
trailing separators). -/
def dropLeadSlash : List Char → List Char
  | [] => []
  | c :: rest => if c = '/' then dropLeadSlash rest else c :: rest

/-- `posixpath.dirname(p)`. -/
def dirname (p : String) : String :=
  let revHead := dropUntilSlash p.data.reverse
  if revHead = [] then ""
  else if revHead.all (· = '/') then String.mk revHead.reverse
  else String.mk (dropLeadSlash revHead).reverse

example : dirname "/w/out/new.txt" = "/w/out" := by decide
example : dirname "/a" = "/" := by decide
example : dirname "plain" = "" := by decide

/-! ## Filesystem state and the Tool Executor (`tools.py`) -/

/-- Explicit filesystem state: regular files as an association list from
absolute path to content (later bindings shadow earlier ones), plus the
set of directories. -/
structure Fs where
  files : List (String × String)
  dirs : List String
deriving Repr, DecidableEq

/-- `os.path.isfile`. -/
def Fs.isFile (fs : Fs) (p : String) : Bool :=
  (fs.files.lookup p).isSome

/-- `os.path.isdir`. -/
def Fs.isDir (fs : Fs) (p : String) : Bool :=
  fs.dirs.contains p

/-- `os.path.exists`. -/
def Fs.exists (fs : Fs) (p : String) : Bool :=
  fs.isFile p || fs.isDir p

/-- `open(p, "w"); write(content)`: unconditional overwrite. -/
def Fs.setFile (fs : Fs) (p content : String) : Fs :=
  { fs with files := (p, content) :: fs.files.filter (fun kv => kv.1 ≠ p) }

/-- The chain of ancestor directories of an absolute path: for
`/a/b/c` the list `[/a, /a/b, /a/b/c]`. -/
def prefixPaths : List String → String → List String
  | [], _ => []
  | c :: rest, acc =>
      let acc2 := acc ++ "/" ++ c
      acc2 :: prefixPaths rest acc2

/-- All directories `os.makedirs(p, exist_ok=True)` ensures for an
absolute path `p`. -/
def dirsOf (p : String) : List String :=
  prefixPaths ((pySplit '/' p).filter (· ≠ "")) ""

/-- Walk the ancestor chain of `os.makedirs(name, exist_ok=True)` in
order: an existing directory is kept (`exist_ok` suppresses `EEXIST` on a
directory), a missing one is created, and a component that exists as a
regular file makes the final `mkdir(name)` raise — `FileExistsError` when
`name` itself is the file, `NotADirectoryError` when a proper ancestor is
(the errno prefix of `str(e)` is not modelled; the message keeps the
substance and, as in the source, names the `name` argument). -/
def makedirsGo (name : String) : Fs → List String → Except String Fs
  | fs, [] => Except.ok fs
  | fs, d :: rest =>
      if fs.isFile d then
        if rest = [] then Except.error ("File exists: " ++ name)
        else Except.error ("Not a directory: " ++ name)
      else if fs.isDir d then makedirsGo name fs rest
      else makedirsGo name { fs with dirs := fs.dirs ++ [d] } rest

/-- `os.makedirs(name, exist_ok=True)` for an absolute `name`: create
`name` and every missing ancestor, failing when a component exists as a
regular file. -/
def Fs.makedirs (fs : Fs) (name : String) : Except String Fs :=
  makedirsGo name fs (dirsOf name)

/-- Name of `q` as an immediate child of directory `parent`, if it is one. -/
def childName (parent q : String) : Option String :=
  if strStarts q (parent ++ "/") then
    let rest := String.mk (q.data.drop (parent.data.length + 1))
    if rest ≠ "" && !rest.data.contains '/' then some rest else none
  else none

/-- Lexicographic comparison of char lists (Python string `<=`). -/
def charsLe : List Char → List Char → Bool
  | [], _ => true
  | _ :: _, [] => false
  | a :: as, b :: bs =>
      if a = b then charsLe as bs else decide (a < b)

/-- Insertion step of the sort used to model Python `sorted`. -/
def insertSorted (x : String) : List String → List String
  | [] => [x]
  | y :: ys => if charsLe x.data y.data then x :: y :: ys else y :: insertSorted x ys

/-- Python `sorted(entries)` for string entries. -/
def sortStrings (l : List String) : List String :=
  l.foldr insertSorted []

/-- `os.listdir(p)` over the explicit state: the immediate child names,
deduplicated (a name denotes one entry). -/
def Fs.listdir (fs : Fs) (p : String) : List String :=
  ((fs.dirs ++ fs.files.map (·.1)).filterMap (childName p)).dedup

/-- Result of executing a tool (`ToolResult` dataclass). -/
structure ToolResult where
  success : Bool
  output : String
  error : Option String := none
deriving Repr, DecidableEq

/-- Tool arguments: the string-valued entries of the parsed JSON object
(all arguments the five tools read are strings). -/
abbrev Args := List (String × String)

/-- Python `arguments.get(key, dflt)`. -/
def argGet (args : Args) (key dflt : String) : String :=
  (args.lookup key).getD dflt

/-- Outcome of `subprocess.run(command, shell=True, ...)`: the external
process either hits the wall-clock timeout or completes with an exit code
and captured streams. -/
inductive ShellOutcome where
  | timeout
  | completed (returncode : Int) (stdout stderr : String)

/-- Outcome of invoking the external `patch` utility: the binary may be
absent (`FileNotFoundError`) or complete with an exit code and streams. -/
inductive PatchOutcome where
  | utilityMissing
  | completed (returncode : Int) (stdout stderr : String)

/-- `ToolExecutor`: the configured root, the timeout, and the two
subprocess capabilities as opaque world-transforming oracles. -/
structure ToolExecutor where
  working_dir : String
  timeout : Nat := 30
  shellRun : String → Fs → ShellOutcome × Fs
  patchRun : String → String → Fs → PatchOutcome × Fs

/-- The characters Python `str.strip()` removes: everything with the
Unicode whitespace property (the `str.isspace` set). -/
def isPySpace (c : Char) : Bool :=
  c = ' ' || c = '\t' || c = '\n' || c = '\x0b' || c = '\x0c' || c = '\r' ||
  c = '\x1c' || c = '\x1d' || c = '\x1e' || c = '\x1f' || c = '\x85' ||
  c = '\xa0' || c = ' ' ||
  (' ' ≤ c && c ≤ ' ') ||
  c = ' ' || c = ' ' || c = ' ' || c = ' ' || c = '　'

/-- Python `s.strip()`: remove leading and trailing whitespace. -/
def pyStrip (s : String) : String :=
  String.mk (((s.data.dropWhile isPySpace).reverse.dropWhile isPySpace).reverse)

/-- `ToolExecutor._execute_shell`. -/
def ToolExecutor.execute_shell (ex : ToolExecutor) (args : Args) (fs : Fs) :
    Except String (ToolResult × Fs) := do
  let command := argGet args "command" ""
  if command = "" then
    return (⟨false, "", some "No command provided"⟩, fs)
  match ex.shellRun command fs with
  | (.timeout, fs2) =>
      return (⟨false, "",
        some ("Command timed out after " ++ toString ex.timeout ++ "s")⟩, fs2)
  | (.completed rc stdout stderr, fs2) =>
      let output := stdout ++ (if stderr ≠ "" then "\n[stderr]\n" ++ stderr else "")
      return (⟨rc = 0, pyStrip output,
        if rc = 0 then none else some ("Exit code: " ++ toString rc)⟩, fs2)

/-- `ToolExecutor._execute_read_file`. The errno detail of opening a
directory is outside the model; the message keeps the substance. -/
def ToolExecutor.execute_read_file (ex : ToolExecutor) (args : Args) (fs : Fs) :
    Except String (ToolResult × Fs) := do
  let path := argGet args "path" ""
  if path = "" then
    return (⟨false, "", some "No path provided"⟩, fs)
  let resolved ← resolve_path ex.working_dir path
  if !fs.exists resolved then
    return (⟨false, "", some ("File not found: " ++ path)⟩, fs)
  match fs.files.lookup resolved with
  | some content => return (⟨true, content, none⟩, fs)
  | none => Except.error ("Is a directory: " ++ resolved)

/-- `ToolExecutor._execute_write_file`: resolve, ensure the parent chain
(`os.makedirs` may raise), then `open(resolved, "w")` — which raises
`IsADirectoryError` when the target resolves to an existing directory
(errno prefix not modelled) — and write. Every raise is an `Except` error
that `execute` converts to a failure `ToolResult`. -/
def ToolExecutor.execute_write_file (ex : ToolExecutor) (args : Args) (fs : Fs) :
    Except String (ToolResult × Fs) := do
  let path := argGet args "path" ""
  let content := argGet args "content" ""
  if path = "" then
    return (⟨false, "", some "No path provided"⟩, fs)
  let resolved ← resolve_path ex.working_dir path
  let fs1 ← fs.makedirs (dirname resolved)
  if fs1.isDir resolved then
    Except.error ("Is a directory: " ++ resolved)
  else
    return (⟨true, "Wrote " ++ toString content.length ++ " bytes to " ++ path,
      none⟩, fs1.setFile resolved content)

/-- Newline join used by `list_files`. -/
def joinNewline : List String → String
  | [] => ""
  | [s] => s
  | s :: rest => s ++ "\n" ++ joinNewline rest

/-- `ToolExecutor._execute_list_files`. -/
def ToolExecutor.execute_list_files (ex : ToolExecutor) (args : Args) (fs : Fs) :
    Except String (ToolResult × Fs) := do
  let path := argGet args "path" "."
  let resolved ← resolve_path ex.working_dir path
  if !fs.exists resolved then
    return (⟨false, "", some ("Path not found: " ++ path)⟩, fs)
  if fs.isFile resolved then
    return (⟨true, path, none⟩, fs)
  let entries := (sortStrings (fs.listdir resolved)).map
    (fun entry => if fs.isDir (pyJoin resolved entry) then entry ++ "/" else entry)
  return (⟨true, joinNewline entries, none⟩, fs)

/-- `ToolExecutor._execute_apply_patch`: the transient on-disk patch file
lives outside the contained root and is removed in the `finally` block
regardless of outcome, so it does not appear in the state. -/
def ToolExecutor.execute_apply_patch (ex : ToolExecutor) (args : Args) (fs : Fs) :
    Except String (ToolResult × Fs) := do
  let path := argGet args "path" ""
  let patchText := argGet args "patch" ""
  if path = "" then
    return (⟨false, "", some "No path provided"⟩, fs)
  if patchText = "" then
    return (⟨false, "", some "No patch provided"⟩, fs)
  let resolved ← resolve_path ex.working_dir path
  match ex.patchRun resolved patchText fs with
  | (.utilityMissing, fs2) =>
      return (⟨false, "",
        some "patch command not found. Install patch utility or use write_file instead."⟩,
        fs2)
  | (.completed rc stdout stderr, fs2) =>
      if rc = 0 then
        return (⟨true, "Patch applied to " ++ path, none⟩, fs2)
      else
        return (⟨false, stdout,
          some (if stderr ≠ "" then stderr
            else "Patch failed with exit code " ++ toString rc)⟩, fs2)

/-- `ToolExecutor.execute`: dispatch on the tool name; unknown names fail
with a uniform error; any exception a handler raises is converted into a
`ToolResult` (the `try/except` around the handler call). -/
def ToolExecutor.execute (ex : ToolExecutor) (tool_name : String)
    (arguments : Args) (fs : Fs) : ToolResult × Fs :=
  let handler : Option (Args → Fs → Except String (ToolResult × Fs)) :=
    if tool_name = "shell" then some ex.execute_shell
    else if tool_name = "read_file" then some ex.execute_read_file
    else if tool_name = "write_file" then some ex.execute_write_file
    else if tool_name = "list_files" then some ex.execute_list_files
    else if tool_name = "apply_patch" then some ex.execute_apply_patch
    else none
  match handler with
  | none => (⟨false, "", some ("Unknown tool: " ++ tool_name)⟩, fs)
  | some h =>
      match h arguments fs with
      | .ok r => r
      | .error e => (⟨false, "", some e⟩, fs)

/-! ## Conversation model (`session.py`)

`created_at` is the `datetime.now()` timestamp; Python round-trips a
`datetime` exactly through `isoformat`/`fromisoformat`, so the snapshot
serialization of this field is modelled as the identity on an opaque
numeric timestamp. -/

/-- One serialized tool-call request as stored on an assistant message:
the dict `id / type:"function" / function.name / function.arguments`
(the constant `"type"` key carries no information and is implicit). -/
structure ToolCallReq where
  id : String
  name : String
  arguments : String
deriving Repr, DecidableEq

/-- The `Message` dataclass: `none` is Python `None`. -/
structure Message where
  role : String
  content : Option String := none
  tool_calls : Option (List ToolCallReq) := none
  tool_call_id : Option String := none
  name : Option String := none
deriving Repr, DecidableEq

/-- A message in wire (OpenAI API) format: `none` means the key is absent
from the serialized dict. -/
structure WireMsg where
  role : String
  content : Option String
  tool_calls : Option (List ToolCallReq)
  tool_call_id : Option String
  name : Option String
deriving Repr, DecidableEq

/-- `Message.to_api_format`: `content` is kept when it is not `None`
(`if self.content is not None`); the remaining optional fields are kept
only when truthy (`if self.tool_calls:` drops an empty list, `if
self.tool_call_id:` and `if self.name:` drop empty strings). -/
def Message.to_api_format (m : Message) : WireMsg where
  role := m.role
  content := m.content
  tool_calls := match m.tool_calls with
    | some l => if l = [] then none else some l
    | none => none
  tool_call_id := match m.tool_call_id with
    | some s => if s = "" then none else some s
    | none => none
  name := match m.name with
    | some s => if s = "" then none else some s
    | none => none

/-- The message-reconstruction loop body of `Session.load`: each field is
read with `.get`, so an absent key becomes `None`. -/
def Message.of_api_format (w : WireMsg) : Message where
  role := w.role
  content := w.content
  tool_calls := w.tool_calls
  tool_call_id := w.tool_call_id
  name := w.name

/-- The `Session` dataclass. -/
structure Session where
  working_dir : String
  system_prompt : String := ""
  messages : List Message := []
  created_at : Nat := 0
  turn_count : Nat := 0
deriving Repr, DecidableEq

/-- Fresh construction (`Session(working_dir=..., system_prompt=...)`)
including `__post_init__`: with a truthy system prompt and no messages,
the system message is appended. -/
def Session.new (working_dir system_prompt : String) (created_at : Nat := 0) :
    Session :=
  let base : Session :=
    { working_dir := working_dir, system_prompt := system_prompt,
      messages := [], created_at := created_at, turn_count := 0 }
  if system_prompt ≠ "" then
    { base with messages := [{ role := "system", content := some system_prompt }] }
  else base

/-- `Session.add_user_message`. -/
def Session.add_user_message (s : Session) (content : String) : Session :=
  { s with messages := s.messages ++ [{ role := "user", content := some content }],
           turn_count := s.turn_count + 1 }

/-- `Session.add_assistant_message`. -/
def Session.add_assistant_message (s : Session) (content : Option String)
    (tool_calls : Option (List ToolCallReq)) : Session :=
  { s with messages := s.messages ++
      [{ role := "assistant", content := content, tool_calls := tool_calls }] }

/-- `Session.add_tool_result`. -/
def Session.add_tool_result (s : Session) (tool_call_id nm result : String) :
    Session :=
  { s with messages := s.messages ++
      [{ role := "tool", content := some result,
         tool_call_id := some tool_call_id, name := some nm }] }

/-- `Session.get_api_messages`. -/
def Session.get_api_messages (s : Session) : List WireMsg :=
  s.messages.map Message.to_api_format

/-- `Session.compact(summary)`: remember the leading system message if
present, build the synthetic summary message, keep the last 10 messages
only when there were more than 10 (`self.messages[-10:] if
len(self.messages) > 10 else []`), and rebuild. -/
def Session.compact (s : Session) (summary : String) : Session :=
  let system_msg : Option Message :=
    match s.messages with
    | m :: _ => if m.role = "system" then some m else none
    | [] => none
  let compaction_msg : Message :=
    { role := "system",
      content := some ("[CONVERSATION SUMMARY]\n" ++ summary ++ "\n[END SUMMARY]") }
  let recent_messages :=
    if s.messages.length > 10 then s.messages.drop (s.messages.length - 10) else []
  { s with messages :=
      (match system_msg with | some m => [m] | none => []) ++
      compaction_msg :: recent_messages }

/-- The session snapshot (`save`/`load` JSON object). -/
structure SessionData where
  working_dir : String
  system_prompt : String
  messages : List WireMsg
  created_at : Nat
  turn_count : Nat
deriving Repr, DecidableEq

/-- `Session.save`: serialize the observable fields, messages in wire
format. -/
def Session.save (s : Session) : SessionData where
  working_dir := s.working_dir
  system_prompt := s.system_prompt
  messages := s.messages.map Message.to_api_format
  created_at := s.created_at
  turn_count := s.turn_count

/-- `Session.load`: reconstruct the session from a snapshot; the message
list built by `__post_init__` is discarded and replaced. -/
def Session.load (d : SessionData) : Session :=
  let s := Session.new d.working_dir d.system_prompt d.created_at
  { s with turn_count := d.turn_count,
           messages := d.messages.map Message.of_api_format }

/-- `Session.clear`: drop everything but the leading system message and
reset the turn counter. -/
def Session.clear (s : Session) : Session :=
  let system_msg : Option Message :=
    match s.messages with
    | m :: _ => if m.role = "system" then some m else none
    | [] => none
  { s with
    messages := match system_msg with | some m => [m] | none => [],
    turn_count := 0 }

/-! ## Turn loop (`agent.py`)

External collaborators are opaque function parameters on the `Agent`
record: the model service (`modelRespond`, one response per call, a
function of the wire-format history), and JSON parsing of tool-call
argument payloads (`parseJson`, `none` modelling `json.JSONDecodeError`).
The generator `yield`s do not change state and are not modelled. -/

/-- One model response: optional final text and the (possibly empty) list
of tool-call requests. `[]` models both `None` and an empty list, matching
the truthiness test `if message.tool_calls:`. -/
structure ModelResponse where
  content : Option String
  tool_calls : List ToolCallReq

/-- The agent with its configuration and collaborator capabilities. -/
structure Agent where
  tool_executor : ToolExecutor
  max_turns : Nat := 50
  auto_approve_tools : Bool := true
  approval_callback : Option (String → String → Args → Bool) := none
  parseJson : String → Option Args
  modelRespond : List WireMsg → ModelResponse

/-- Observable outcome of one `Agent._execute_tool` call: the result, the
filesystem afterwards, and whether the approval gate respectively the
executor were reached. -/
structure ExecOutcome where
  result : ToolResult
  fs : Fs
  gateConsulted : Bool
  executorInvoked : Bool
deriving Repr

/-- `Agent._execute_tool`: parse the JSON argument payload; consult the
approval gate only when `auto_approve_tools` is off and a callback is
configured; on denial synthesize the failure result without reaching the
executor; otherwise dispatch to `ToolExecutor.execute`. -/
def Agent.execute_tool (a : Agent) (tc : ToolCallReq) (fs : Fs) : ExecOutcome :=
  match a.parseJson tc.arguments with
  | none =>
      ⟨⟨false, "", some ("Invalid JSON arguments: " ++ tc.arguments)⟩, fs,
        false, false⟩
  | some arguments =>
      match a.auto_approve_tools, a.approval_callback with
      | false, some cb =>
          if cb tc.name tc.id arguments then
            let (r, fs2) := a.tool_executor.execute tc.name arguments fs
            ⟨r, fs2, true, true⟩
          else
            ⟨⟨false, "", some "Tool execution denied by user"⟩, fs, true, false⟩
      | _, _ =>
          let (r, fs2) := a.tool_executor.execute tc.name arguments fs
          ⟨r, fs2, false, true⟩

/-- The `for tool_call in message.tool_calls:` body of `Agent.run`: execute
each request in model order, appending one tool-role message per request
(`result.output` on success, `"Error: "` plus the error, Python rendering
`None` as `"None"`). -/
def Agent.run_tool_batch (a : Agent) :
    List ToolCallReq → Session → Fs → Session × Fs × List ToolResult
  | [], s, fs => (s, fs, [])
  | tc :: rest, s, fs =>
      let o := a.execute_tool tc fs
      let result_content :=
        if o.result.success then o.result.output
        else "Error: " ++ o.result.error.getD "None"
      let s2 := s.add_tool_result tc.id tc.name result_content
      let r2 := a.run_tool_batch rest s2 o.fs
      (r2.1, r2.2.1, o.result :: r2.2.2)

/-- Outcome of a whole `Agent.run` call: final session and filesystem, the
number of model calls issued, and the returned text (`none` when the model
produced a final response with `content=None`). -/
structure RunOutcome where
  session : Session
  fs : Fs
  model_calls : Nat
  result : Option String
deriving Repr

/-- The `while turn_count < max_turns:` loop of `Agent.run`, as fuel
recursion on the remaining iterations. Exhausted fuel is the loop
condition failing: the sentinel is returned without another model call. -/
def Agent.run_loop (a : Agent) : Nat → Session → Fs → Nat → RunOutcome
  | 0, s, fs, calls => ⟨s, fs, calls, some "Agent reached maximum turn limit."⟩
  | fuel + 1, s, fs, calls =>
      let response := a.modelRespond s.get_api_messages
      if response.tool_calls = [] then
        let s2 := s.add_assistant_message response.content none
        ⟨s2, fs, calls + 1, response.content⟩
      else
        let s2 := s.add_assistant_message response.content (some response.tool_calls)
        let b := a.run_tool_batch response.tool_calls s2 fs
        a.run_loop fuel b.1 b.2.1 (calls + 1)

/-- `Agent.run(user_input)`: append the user message, then drive the loop
for at most `max_turns` iterations. -/
def Agent.run (a : Agent) (user_input : String) (s : Session) (fs : Fs) :
    RunOutcome :=
  a.run_loop a.max_turns (s.add_user_message user_input) fs 0

/-! ## Session mutator sequences (for the turn-count invariant)

The published mutators of `Session`, as an operation alphabet, so that the
turn-count invariant can be stated over every sequence of calls. -/

/-- One call to a `Session` mutator. -/
inductive SessionOp where
  | addUser (content : String)
  | addAssistant (content : Option String) (tool_calls : Option (List ToolCallReq))
  | addToolResult (id nm result : String)
  | compactOp (summary : String)
  | clearOp

/-- Apply one mutator call. -/
def applySessionOp (s : Session) : SessionOp → Session
  | .addUser c => s.add_user_message c
  | .addAssistant c tcs => s.add_assistant_message c tcs
  | .addToolResult i n r => s.add_tool_result i n r
  | .compactOp t => s.compact t
  | .clearOp => s.clear

/-- Apply a sequence of mutator calls in order. -/
def applySessionOps (s : Session) (ops : List SessionOp) : Session :=
  ops.foldl applySessionOp s

/-- The number of `add_user_message` calls since the last `clear` (or
since the start when no `clear` occurs) in a call sequence. -/
def countUserSinceClear (ops : List SessionOp) : Nat :=
  ops.foldl
    (fun n op => match op with
      | .addUser _ => n + 1
      | .clearOp => 0
      | _ => n) 0

/-! ## Concrete fixtures used to instantiate theorems -/

/-- A concrete executor rooted at `/w` with trivial subprocess oracles. -/
def exW : ToolExecutor where
  working_dir := "/w"
  timeout := 30
  shellRun := fun _ fs => (.completed 0 "" "", fs)
  patchRun := fun _ _ fs => (.utilityMissing, fs)

/-- An empty contained filesystem rooted at `/w`. -/
def fsW : Fs := ⟨[], ["/w"]⟩

/-- A concrete tool-call request. -/
def tcW : ToolCallReq := ⟨"c1", "shell", "x"⟩

example : (exW.execute "write_file" [("path", ".")] fsW).1 =
    ⟨false, "", some "Is a directory: /w"⟩ := by decide
example : (exW.execute "write_file" [("path", "out/new.txt"), ("content", "hi")]
    ⟨[("/w/out", "f")], ["/w"]⟩).1 =
    ⟨false, "", some "File exists: /w/out"⟩ := by decide

/-- An agent whose model always requests one more tool call and never
produces a final answer, with `max_turns = 3`. -/
def agentAllTools : Agent where
  tool_executor := exW
  max_turns := 3
  auto_approve_tools := true
  approval_callback := none
  parseJson := fun _ => some []
  modelRespond := fun _ => ⟨none, [tcW]⟩

/-- An agent with auto-approval off and an always-deny approval gate. -/
def agentDeny : Agent where
  tool_executor := exW
  max_turns := 3
  auto_approve_tools := false
  approval_callback := some (fun _ _ _ => false)
  parseJson := fun _ => some []
  modelRespond := fun _ => ⟨some "ok", []⟩

/-- A session holding a single user message and no system message. -/
def sOneMsg : Session :=
  { working_dir := "/w", system_prompt := "", created_at := 0, turn_count := 1,
    messages := [{ role := "user", content := some "hi" }] }

/-- A session with a system message plus 15 prior messages (the
compaction example of the specification). -/
def sSixteen : Session :=
  { working_dir := "/w", system_prompt := "sys", created_at := 0, turn_count := 8,
    messages := { role := "system", content := some "sys" } ::
      (List.range 15).map (fun i => { role := "user", content := some (toString i) }) }

/-- A session exercising every message shape whose optional fields are
either unset or truthy. -/
def sessW : Session :=
  { working_dir := "/w", system_prompt := "sys", created_at := 7, turn_count := 2,
    messages :=
      [{ role := "system", content := some "sys" },
       { role := "user", content := some "hello" },
       { role := "assistant", content := none, tool_calls := some [tcW] },
       { role := "tool", content := some "out", tool_call_id := some "c1",
         name := some "shell" },
       { role := "assistant", content := some "done" }] }

/-- A session holding an assistant message whose `tool_calls` field is the
empty list (truthiness drops it from the wire format). -/
def sessBad : Session :=
  { working_dir := "/w", system_prompt := "", created_at := 0, turn_count := 0,
    messages := [{ role := "assistant", content := some "x", tool_calls := some [] }] }

/-! ## Theorems for the specification claims -/

/-- C1: path containment is claimed to accept exactly the root and its
descendants, and the source comment states the same intent; but
`_resolve_path` tests with a string-prefix check against the root without
a separator, so `../wd2` under root `/tmp/wd` normalizes to the sibling
`/tmp/wd2` — not the root or a descendant — and is accepted. The claimed
rejection of `../outside.txt` does hold, purely lexically, with the
filesystem untouched. -/
theorem C1_containment_prefix_bug :
    resolve_path "/tmp/wd" "../wd2" = Except.ok "/tmp/wd2" ∧
    isRootOrDescendant "/tmp/wd" "/tmp/wd2" = false ∧
    resolve_path "/tmp/wd" "../outside.txt" =
      Except.error "Path ../outside.txt is outside working directory" ∧
    exW.execute "read_file" [("path", "../outside.txt")] fsW =
      (⟨false, "", some "Path ../outside.txt is outside working directory"⟩, fsW) :=
  ⟨rfl, by decide, rfl, rfl⟩

/-- C2 counterexample: on a session holding one user message and no
system message, `compact` keeps zero prior messages (the source keeps the
last 10 only when there were more than 10), so the result has 1 message,
not the claimed `0 + 1 + min 10 1 = 2`. -/
theorem C2_counterexample :
    (sOneMsg.compact "S").messages.length = 1 ∧
    ¬ ((sOneMsg.compact "S").messages.length =
        0 + 1 + min 10 sOneMsg.messages.length) := by
  decide

/-- C2 (amended): `compact` keeps the leading system message if present,
inserts the synthetic summary message, and then appends the last 10
pre-compaction messages when the previous length exceeded 10 and nothing
otherwise; the resulting count is (1 if a system message existed else 0)
\+ 1 + (10 if previous length > 10 else 0). With a system message plus 15
prior messages the result is exactly 12 messages in that order. -/
theorem C2_compact_amended (s : Session) (t : String) :
    ((s.compact t).messages =
      (match s.messages with
        | m :: _ => if m.role = "system" then [m] else []
        | [] => []) ++
      { role := "system",
        content := some ("[CONVERSATION SUMMARY]\n" ++ t ++ "\n[END SUMMARY]") } ::
      (if s.messages.length > 10 then s.messages.drop (s.messages.length - 10)
       else [])) ∧
    ((s.compact t).messages.length =
      (match s.messages with
        | m :: _ => if m.role = "system" then 1 else 0
        | [] => 0) + 1 +
      (if s.messages.length > 10 then 10 else 0)) ∧
    (sSixteen.compact "S").messages =
      { role := "system", content := some "sys" } ::
      { role := "system",
        content := some "[CONVERSATION SUMMARY]\nS\n[END SUMMARY]" } ::
      sSixteen.messages.drop 6 ∧
    (sSixteen.compact "S").messages.length = 12 := by
  have hmain : (s.compact t).messages =
      (match s.messages with
        | m :: _ => if m.role = "system" then [m] else []
        | [] => []) ++
      { role := "system",
        content := some ("[CONVERSATION SUMMARY]\n" ++ t ++ "\n[END SUMMARY]") } ::
      (if s.messages.length > 10 then s.messages.drop (s.messages.length - 10)
       else []) := by
    unfold Session.compact
    cases hm : s.messages with
    | nil => simp
    | cons m rest => by_cases hr : m.role = "system" <;> simp [hr]
  refine ⟨hmain, ?_, by decide, by decide⟩
  rw [hmain]
  cases hm : s.messages with
  | nil => simp
  | cons m rest =>
      by_cases hr : m.role = "system" <;>
        by_cases hl : 10 < rest.length + 1 <;>
          simp [hr, hl, List.length_drop] <;> omega

/-- C4: looking up an unrecognized tool name yields the uniform failure
result with error exactly "Unknown tool: " followed by the name, and the
filesystem state is unchanged (no handler runs). Totality of `execute` is
by construction of the embedding: every handler fault is an `Except`
error converted into a `ToolResult` at the `execute` boundary. -/
theorem C4_unknown_tool (ex : ToolExecutor) (tool_name : String)
    (arguments : Args) (fs : Fs)
    (h : tool_name ∉ (["shell", "read_file", "write_file", "list_files",
      "apply_patch"] : List String)) :
    ex.execute tool_name arguments fs =
      (⟨false, "", some ("Unknown tool: " ++ tool_name)⟩, fs) := by
  simp only [List.mem_cons, List.not_mem_nil, or_false, not_or] at h
  obtain ⟨h1, h2, h3, h4, h5⟩ := h
  simp [ToolExecutor.execute, h1, h2, h3, h4, h5]

/-- C4 witness: the unknown name "frobnicate" on a concrete executor and
filesystem. -/
theorem C4_witness :
    ("frobnicate" ∉ (["shell", "read_file", "write_file", "list_files",
      "apply_patch"] : List String)) ∧
    exW.execute "frobnicate" [] fsW =
      (⟨false, "", some "Unknown tool: frobnicate"⟩, fsW) :=
  ⟨by decide, (C4_unknown_tool exW "frobnicate" [] fsW (by decide)).trans (by decide)⟩

/-- Helper: the turn counter after a call sequence is the fold of the
per-call effect over the starting counter. -/
theorem turn_count_foldl (ops : List SessionOp) :
    ∀ s : Session, (applySessionOps s ops).turn_count =
      ops.foldl
        (fun n op => match op with
          | .addUser _ => n + 1
          | .clearOp => 0
          | _ => n) s.turn_count := by
  induction ops with
  | nil => intro s; rfl
  | cons op rest ih =>
      intro s
      have h1 : applySessionOps s (op :: rest) =
          applySessionOps (applySessionOp s op) rest := rfl
      rw [h1, ih, List.foldl_cons]
      cases op <;> rfl

/-- C7: `add_user_message` increments `turn_count` by one; the other
mutators (`add_assistant_message`, `add_tool_result`, `compact`) leave it
unchanged; `clear` resets it to 0; consequently, over every sequence of
mutator calls on a freshly created session, `turn_count` equals the number
of `add_user_message` calls since creation or the last `clear`. -/
theorem C7_turn_count_invariant :
    (∀ (s : Session) (c : String),
      (s.add_user_message c).turn_count = s.turn_count + 1) ∧
    (∀ (s : Session) (c : Option String) (tcs : Option (List ToolCallReq)),
      (s.add_assistant_message c tcs).turn_count = s.turn_count) ∧
    (∀ (s : Session) (i nm r : String),
      (s.add_tool_result i nm r).turn_count = s.turn_count) ∧
    (∀ (s : Session) (t : String), (s.compact t).turn_count = s.turn_count) ∧
    (∀ s : Session, s.clear.turn_count = 0) ∧
    (∀ (wd sp : String) (ops : List SessionOp),
      (applySessionOps (Session.new wd sp) ops).turn_count =
        countUserSinceClear ops) := by
  refine ⟨fun s c => rfl, fun s c tcs => rfl, fun s i nm r => rfl,
    fun s t => rfl, fun s => rfl, fun wd sp ops => ?_⟩
  rw [turn_count_foldl, countUserSinceClear]
  have h0 : (Session.new wd sp).turn_count = 0 := by
    unfold Session.new
    split <;> rfl
  rw [h0]

/-- C10: compaction changes only the message sequence; the working root,
system prompt, creation timestamp and turn counter are untouched. -/
theorem C10_compact_frame (s : Session) (t : String) :
    (s.compact t).working_dir = s.working_dir ∧
    (s.compact t).system_prompt = s.system_prompt ∧
    (s.compact t).created_at = s.created_at ∧
    (s.compact t).turn_count = s.turn_count :=
  ⟨rfl, rfl, rfl, rfl⟩

/-- Helper: a message whose optional fields are never set to falsy values
(empty tool-call list, empty-string id or name) survives wire projection
and reconstruction unchanged. -/
theorem message_roundtrip (m : Message) (h1 : m.tool_calls ≠ some [])
    (h2 : m.tool_call_id ≠ some "") (h3 : m.name ≠ some "") :
    Message.of_api_format m.to_api_format = m := by
  obtain ⟨role, content, tool_calls, tool_call_id, nm⟩ := m
  cases tool_calls <;> cases tool_call_id <;> cases nm <;>
    simp_all [Message.of_api_format, Message.to_api_format]

/-- Helper: `message_roundtrip` lifted over a message list. -/
theorem messages_roundtrip (msgs : List Message)
    (h : ∀ m ∈ msgs, m.tool_calls ≠ some [] ∧ m.tool_call_id ≠ some "" ∧
      m.name ≠ some "") :
    (msgs.map Message.to_api_format).map Message.of_api_format = msgs := by
  induction msgs with
  | nil => rfl
  | cons m rest ih =>
      obtain ⟨h1, h2, h3⟩ := h m (by simp)
      simp only [List.map_cons, message_roundtrip m h1 h2 h3,
        ih (fun x hx => h x (by simp [hx])), List.map_map]

/-- C5 (amended): `save` followed by `load` reproduces the working root,
system prompt, turn_count, creation timestamp, and an identical message
sequence, for every session in which no message carries a falsy-but-set
optional field (an empty `tool_calls` list, or an empty-string
`tool_call_id` or `name`): such values are dropped by the truthiness
checks of the wire projection and come back as unset. -/
theorem C5_roundtrip (s : Session)
    (h : ∀ m ∈ s.messages, m.tool_calls ≠ some [] ∧ m.tool_call_id ≠ some "" ∧
      m.name ≠ some "") :
    Session.load s.save = s := by
  obtain ⟨wd, sp, msgs, ca, tc⟩ := s
  have hmap := messages_roundtrip msgs h
  unfold Session.load Session.save Session.new
  split <;> simp_all

/-- C5 witness: a five-message session covering every message shape with
no falsy-but-set optional field round-trips exactly. -/
theorem C5_witness :
    (∀ m ∈ sessW.messages, m.tool_calls ≠ some [] ∧ m.tool_call_id ≠ some "" ∧
      m.name ≠ some "") ∧
    Session.load sessW.save = sessW :=
  ⟨by decide, C5_roundtrip sessW (by decide)⟩

/-- C5 counterexample: a session holding an assistant message with
`tool_calls = []` does not round-trip: `to_api_format` drops the empty
list (`if self.tool_calls:`) and `load` reads it back as `None`, so the
reloaded message differs from the original and the claimed unconditional
round-trip identity fails. -/
theorem C5_counterexample : Session.load sessBad.save ≠ sessBad := by
  decide

/-- C6: the batch loop processes tool-call requests strictly in the order
returned by the model, appending exactly one tool-role message per request
in that same order (bound to the id and name of its request), whatever
each result is — a failure never prevents the subsequent requests; in
particular two requests [A, B] yield results in order [A-result,
B-result]. -/
theorem C6_tool_order (a : Agent) :
    (∀ (tcs : List ToolCallReq) (s : Session) (fs : Fs),
      (a.run_tool_batch tcs s fs).1.messages.map
          (fun m => (m.role, m.tool_call_id, m.name)) =
        s.messages.map (fun m => (m.role, m.tool_call_id, m.name)) ++
          tcs.map (fun tc => ("tool", some tc.id, some tc.name)) ∧
      (a.run_tool_batch tcs s fs).2.2.length = tcs.length) ∧
    (∀ (A B : ToolCallReq) (s : Session) (fs : Fs),
      (a.run_tool_batch [A, B] s fs).1.messages.map
          (fun m => (m.role, m.tool_call_id, m.name)) =
        s.messages.map (fun m => (m.role, m.tool_call_id, m.name)) ++
          [("tool", some A.id, some A.name), ("tool", some B.id, some B.name)]) := by
  have general : ∀ (tcs : List ToolCallReq) (s : Session) (fs : Fs),
      (a.run_tool_batch tcs s fs).1.messages.map
          (fun m => (m.role, m.tool_call_id, m.name)) =
        s.messages.map (fun m => (m.role, m.tool_call_id, m.name)) ++
          tcs.map (fun tc => ("tool", some tc.id, some tc.name)) ∧
      (a.run_tool_batch tcs s fs).2.2.length = tcs.length := by
    intro tcs
    induction tcs with
    | nil => intro s fs; simp [Agent.run_tool_batch]
    | cons tc rest ih =>
        intro s fs
        constructor
        · simp only [Agent.run_tool_batch]
          rw [(ih _ _).1]
          simp [Session.add_tool_result]
        · simp only [Agent.run_tool_batch, List.length_cons]
          rw [(ih _ _).2]
  refine ⟨general, fun A B s fs => ?_⟩
  rw [(general [A, B] s fs).1]
  simp

/-- C3: when every model response carries tool-call requests and never a
final answer, the loop runs exactly `max_turns` iterations with one model
call each, makes no further model call, and returns the fixed sentinel
text. -/
theorem C3_max_turns (a : Agent)
    (h : ∀ msgs, (a.modelRespond msgs).tool_calls ≠ []) (input : String)
    (s : Session) (fs : Fs) :
    (a.run input s fs).model_calls = a.max_turns ∧
    (a.run input s fs).result = some "Agent reached maximum turn limit." := by
  have key : ∀ (fuel : Nat) (s : Session) (fs : Fs) (calls : Nat),
      (a.run_loop fuel s fs calls).model_calls = calls + fuel ∧
      (a.run_loop fuel s fs calls).result =
        some "Agent reached maximum turn limit." := by
    intro fuel
    induction fuel with
    | zero => intro s fs calls; exact ⟨rfl, rfl⟩
    | succ n ih =>
        intro s fs calls
        have hne := h (Session.get_api_messages s)
        simp only [Agent.run_loop, if_neg hne]
        refine ⟨?_, (ih _ _ _).2⟩
        rw [(ih _ _ _).1]
        omega
  have hk := key a.max_turns (s.add_user_message input) fs 0
  exact ⟨by rw [Agent.run, hk.1]; omega, by rw [Agent.run]; exact hk.2⟩

/-- C3 witness: an agent whose model always requests one more tool call,
with `max_turns = 3`, issues exactly 3 model calls and returns the
sentinel. -/
theorem C3_witness :
    (∀ msgs, (agentAllTools.modelRespond msgs).tool_calls ≠ []) ∧
    (agentAllTools.run "go" (Session.new "/w" "sys") fsW).model_calls = 3 ∧
    (agentAllTools.run "go" (Session.new "/w" "sys") fsW).result =
      some "Agent reached maximum turn limit." := by
  have h : ∀ msgs, (agentAllTools.modelRespond msgs).tool_calls ≠ [] := by
    intro msgs
    simp [agentAllTools]
  exact ⟨h, (C3_max_turns agentAllTools h "go" (Session.new "/w" "sys") fsW).1,
    (C3_max_turns agentAllTools h "go" (Session.new "/w" "sys") fsW).2⟩

/-- Helper: a successful `makedirs` walk leaves the regular files
untouched, keeps every existing directory, and ensures every directory of
the requested chain. -/
theorem makedirsGo_spec (name : String) (l : List String) :
    ∀ (fs fs1 : Fs), makedirsGo name fs l = Except.ok fs1 →
      fs1.files = fs.files ∧ (∀ x ∈ fs.dirs, x ∈ fs1.dirs) ∧
      (∀ d ∈ l, d ∈ fs1.dirs) := by
  induction l with
  | nil =>
      intro fs fs1 h
      cases h
      exact ⟨rfl, fun x hx => hx, by simp⟩
  | cons d rest ih =>
      intro fs fs1 h
      rw [makedirsGo] at h
      by_cases hf : fs.isFile d
      · rw [if_pos hf] at h
        split at h <;> cases h
      · rw [if_neg hf] at h
        by_cases hd : fs.isDir d
        · rw [if_pos hd] at h
          obtain ⟨h1, h2, h3⟩ := ih fs fs1 h
          refine ⟨h1, h2, fun x hx => ?_⟩
          rcases List.mem_cons.mp hx with rfl | hx
          · exact h2 x (by simpa [Fs.isDir] using hd)
          · exact h3 x hx
        · rw [if_neg hd] at h
          obtain ⟨h1, h2, h3⟩ := ih _ fs1 h
          refine ⟨h1, fun x hx => h2 x (by simp [hx]), fun x hx => ?_⟩
          rcases List.mem_cons.mp hx with rfl | hx
          · exact h2 x (by simp)
          · exact h3 x hx

/-- C8 (amended): for a contained path whose parent chain contains no
existing regular file and whose target does not resolve to an existing
directory (otherwise `os.makedirs` respectively `open` raise an `OSError`
that `execute` reports as a failure `ToolResult`), `write_file` creates
the missing ancestor directories of the target, overwrites the target
unconditionally with exactly the given content, and reports success with
output "Wrote \{N} bytes to \{path}" where N is `len(content)` — the
number of characters of the content, which equals the byte count only for
content whose characters are single-byte; a missing path argument yields
the "No path provided" error. -/
theorem C8_write_file (ex : ToolExecutor) (fs fs1 : Fs) (args : Args)
    (path content resolved : String)
    (hp : argGet args "path" "" = path)
    (hc : argGet args "content" "" = content)
    (hne : path ≠ "")
    (hres : resolve_path ex.working_dir path = Except.ok resolved)
    (hmk : fs.makedirs (dirname resolved) = Except.ok fs1)
    (hdir : fs1.isDir resolved = false) :
    (ex.execute "write_file" args fs).1 =
      ⟨true, "Wrote " ++ toString content.length ++ " bytes to " ++ path, none⟩ ∧
    ((ex.execute "write_file" args fs).2.files.lookup resolved = some content) ∧
    (∀ d ∈ dirsOf (dirname resolved),
      d ∈ (ex.execute "write_file" args fs).2.dirs) ∧
    (∀ args2 : Args, argGet args2 "path" "" = "" →
      ex.execute "write_file" args2 fs = (⟨false, "", some "No path provided"⟩, fs)) := by
  have h0 : ex.execute "write_file" args fs =
      (match ex.execute_write_file args fs with
        | .ok r => r
        | .error e => (⟨false, "", some e⟩, fs)) := rfl
  have hexec : ex.execute "write_file" args fs =
      (⟨true, "Wrote " ++ toString content.length ++ " bytes to " ++ path, none⟩,
        fs1.setFile resolved content) := by
    rw [h0]
    have hbind : ∀ {α β : Type} (a : α) (f : α → Except String β),
        (Except.ok a >>= f) = f a := fun a f => rfl
    simp [ToolExecutor.execute_write_file, hp, hc, hne, hres, hmk, hdir, hbind]
    rfl
  obtain ⟨hfiles, hmono, hchain⟩ :=
    makedirsGo_spec (dirname resolved) (dirsOf (dirname resolved)) fs fs1 hmk
  refine ⟨by rw [hexec], ?_, ?_, ?_⟩
  · rw [hexec]
    simp [Fs.setFile, List.lookup]
  · rw [hexec]
    intro d hd
    simpa [Fs.setFile] using hchain d hd
  · intro args2 hp2
    have h02 : ex.execute "write_file" args2 fs =
        (match ex.execute_write_file args2 fs with
          | .ok r => r
          | .error e => (⟨false, "", some e⟩, fs)) := rfl
    rw [h02]
    simp only [ToolExecutor.execute_write_file, hp2]
    rfl

/-- C8 witness: writing "hi" to `out/new.txt` under root `/w` creates
directory `/w/out`, stores exactly "hi" at `/w/out/new.txt`, and reports
2 bytes; the side conditions (no file in the parent chain, target not a
directory) hold and are discharged by evaluation. -/
theorem C8_witness :
    resolve_path exW.working_dir "out/new.txt" = Except.ok "/w/out/new.txt" ∧
    fsW.makedirs (dirname "/w/out/new.txt") =
      Except.ok ⟨[], ["/w", "/w/out"]⟩ ∧
    (exW.execute "write_file" [("path", "out/new.txt"), ("content", "hi")] fsW).1 =
      ⟨true, "Wrote 2 bytes to out/new.txt", none⟩ ∧
    (exW.execute "write_file" [("path", "out/new.txt"), ("content", "hi")]
      fsW).2.files.lookup "/w/out/new.txt" = some "hi" ∧
    "/w/out" ∈ (exW.execute "write_file" [("path", "out/new.txt"),
      ("content", "hi")] fsW).2.dirs := by
  have h := C8_write_file exW fsW ⟨[], ["/w", "/w/out"]⟩
    [("path", "out/new.txt"), ("content", "hi")]
    "out/new.txt" "hi" "/w/out/new.txt" rfl rfl (by decide) rfl rfl rfl
  exact ⟨rfl, rfl, h.1.trans (by decide), h.2.1, h.2.2.1 "/w/out" (by decide)⟩

/-- C8 counterexample: the reported N is `len(content)`, the character
count, not the number of bytes written: content "é" is one character but
two UTF-8 bytes, yet the tool reports "Wrote 1 bytes". -/
theorem C8_counterexample :
    (exW.execute "write_file" [("path", "a.txt"), ("content", "é")] fsW).1.output =
      "Wrote 1 bytes to a.txt" ∧
    (exW.execute "write_file" [("path", "a.txt"), ("content", "é")]
      fsW).2.files.lookup "/w/a.txt" = some "é" ∧
    utf8Len "é" = 2 ∧
    (exW.execute "write_file" [("path", "a.txt"), ("content", "é")] fsW).1.output ≠
      "Wrote " ++ toString (utf8Len "é") ++ " bytes to a.txt" := by
  decide

/-- C9 (amended): with auto-approval enabled the approval gate is never
consulted; when the gate is consulted and denies a call, the result is
success=false with error "Tool execution denied by user" (not the literal
"denied" the claim states), the Tool Executor is never invoked, and the
filesystem is untouched. -/
theorem C9_approval_gate (a : Agent) (tc : ToolCallReq) (fs : Fs) :
    (a.auto_approve_tools = true → (a.execute_tool tc fs).gateConsulted = false) ∧
    (∀ (f : String → String → Args → Bool) (args : Args),
      a.auto_approve_tools = false → a.approval_callback = some f →
      a.parseJson tc.arguments = some args → f tc.name tc.id args = false →
      (a.execute_tool tc fs).result =
        ⟨false, "", some "Tool execution denied by user"⟩ ∧
      (a.execute_tool tc fs).executorInvoked = false ∧
      (a.execute_tool tc fs).fs = fs) := by
  constructor
  · intro hauto
    unfold Agent.execute_tool
    cases hp : a.parseJson tc.arguments with
    | none => rfl
    | some args => rw [hauto]
  · intro f args hauto hcb hp hdeny
    unfold Agent.execute_tool
    rw [hp, hauto, hcb]
    simp [hdeny]

/-- C9 witness: a concrete denying gate on a concrete call, and a concrete
auto-approving agent that never consults its gate. -/
theorem C9_witness :
    ((agentDeny.execute_tool tcW fsW).result =
        ⟨false, "", some "Tool execution denied by user"⟩ ∧
      (agentDeny.execute_tool tcW fsW).executorInvoked = false ∧
      (agentDeny.execute_tool tcW fsW).fs = fsW) ∧
    (agentAllTools.execute_tool tcW fsW).gateConsulted = false :=
  ⟨(C9_approval_gate agentDeny tcW fsW).2 (fun _ _ _ => false) [] rfl rfl rfl rfl,
    (C9_approval_gate agentAllTools tcW fsW).1 rfl⟩

/-- C9 counterexample: on denial the error text is "Tool execution denied
by user", not the "denied" the claim asserts. -/
theorem C9_counterexample :
    (agentDeny.execute_tool tcW fsW).result.error =
      some "Tool execution denied by user" ∧
    (agentDeny.execute_tool tcW fsW).result.error ≠ some "denied" :=
  ⟨rfl, by decide⟩

end MiniCodex
